import Mathlib

/-!
Shallow embedding of `src/tfsnippet/distributions/utils.py`
(`validate_group_ndims` and `reduce_group_ndims`) and of the small slice
of its environment they use.

A `group_ndims` count is either a concrete Python number (modelled as a
rational, so that non-integral concrete inputs exist) or a symbolic
TensorFlow tensor, of which only the statically declared dtype matters at
construction time; its runtime value is supplied at graph-execution time.
Graph construction is modelled explicitly: each call returns, besides its
result, the list of graph nodes it inserted, each tagged with the name
scope it was inserted under.  Fallible construction returns `Except`.
-/

set_option autoImplicit false

/-- Construction-time and execution-time failures. `invalidArgument`
models the `TypeError`/`ValueError` raised at construction;
`runtimeAssertionViolated` models a deferred assertion firing when the
graph is executed. -/
inductive TfError where
  | invalidArgument (msg : String)
  | runtimeAssertionViolated
  deriving DecidableEq, Repr

/-- A `group_ndims` argument: a concrete number known at construction
time (a rational, so non-integral inputs such as 1.5 are representable),
or a symbolic tensor whose statically declared dtype either is or is not
integer-compatible.  A symbolic tensor's runtime value is not part of the
construction-time data. -/
inductive CountVal where
  | concrete (q : ℚ)
  | symbolic (intCompatible : Bool)
  deriving DecidableEq, Repr

/-- The kinds of graph node the embedded code inserts: the runtime
non-negativity assertion attached to a symbolic count, and the `tf.cond`
conditional built for a symbolic count. -/
inductive NodeKind where
  | assertNonNeg
  | condNode
  deriving DecidableEq, Repr

/-- A graph node inserted during construction, tagged with the name scope
it was inserted under (`none` when no scope was open). -/
structure GraphNode where
  scope : Option String
  kind : NodeKind
  deriving DecidableEq, Repr

/-- Semantics of `tf.name_scope(name, default_name=d)`: the scope is the
caller-supplied name when present, the default name otherwise. -/
def scopeName (name : Option String) (defaultName : String) : String :=
  name.getD defaultName

/-- Modelled from the spec: `is_tensor_object` is imported from
`tfsnippet.utils`, which is not under `src/`.  Per the spec's data model,
a count value is either concrete or symbolic; the predicate recognises
the symbolic (tensor) case. -/
def is_tensor_object : CountVal → Bool
  | .symbolic _ => true
  | .concrete _ => false

/-- Modelled from the spec: `TensorArgValidator.require_int32` from
`tfsnippet.utils` is not under `src/`.  Per spec section 4.1, a concrete
input fails with `InvalidArgument` when it is non-integral, and a
symbolic input fails immediately when its declared type is not
integer-compatible; otherwise the value is returned unchanged. -/
def require_int32 : CountVal → Except TfError CountVal
  | .concrete q =>
      if q.den = 1 then .ok (.concrete q)
      else .error (.invalidArgument "group_ndims must be int32")
  | .symbolic intCompatible =>
      if intCompatible then .ok (.symbolic intCompatible)
      else .error (.invalidArgument "group_ndims must be int32")

/-- Modelled from the spec: `TensorArgValidator.require_non_negative`
from `tfsnippet.utils` is not under `src/`.  Per spec section 4.1, a
concrete negative input fails with `InvalidArgument`, and for a symbolic
input a runtime non-negativity assertion node is embedded into the graph
under the currently open name scope. -/
def require_non_negative (scope : Option String) :
    CountVal → Except TfError (CountVal × List GraphNode)
  | .concrete q =>
      if 0 ≤ q then .ok (.concrete q, [])
      else .error (.invalidArgument "group_ndims must be non-negative")
  | .symbolic b => .ok (.symbolic b, [⟨scope, .assertNonNeg⟩])

/-- `validate_group_ndims(group_ndims, name=None)` from
`src/tfsnippet/distributions/utils.py`.  The `gen_name_scope` context
manager opens the name scope (caller name, default
"validate_group_ndims") only when the input is a tensor object; both
validator calls run inside it. -/
def validate_group_ndims (group_ndims : CountVal) (name : Option String) :
    Except TfError (CountVal × List GraphNode) :=
  let scope : Option String :=
    if is_tensor_object group_ndims then
      some (scopeName name "validate_group_ndims")
    else none
  do
    let g ← require_int32 group_ndims
    require_non_negative scope g

/-- `tf.range(start, limit)`: the integers `start, start+1, ..., limit-1`
(empty when `limit ≤ start`). -/
def tfRange (start limit : Int) : List Int :=
  (List.range (limit - start).toNat).map (fun i => start + (i : Int))

/-- The result of constructing the reduction: either a plain value (the
concrete-count paths) or a `tf.cond` conditional holding both branches
ahead of execution; the true branch depends on the symbolic count's
runtime value. -/
inductive TensorVal (α : Type) where
  | base (t : α)
  | condResult (trueBranch : Int → α) (falseBranch : α)

/-- `reduce_group_ndims(operation, tensor, group_ndims, name=None)` from
`src/tfsnippet/distributions/utils.py`.  Validation is delegated first,
with no `name` forwarded; the remaining nodes are inserted under the name
scope (caller name, default "reduce_group_ndims").  A symbolic count
builds a `tf.cond` over both branches; a concrete positive count applies
the operation over `tf.range(-group_ndims, 0)`; a concrete zero count
returns the tensor unchanged. -/
def reduce_group_ndims {α : Type} (operation : α → List Int → α)
    (tensor : α) (group_ndims : CountVal) (name : Option String) :
    Except TfError (TensorVal α × List GraphNode) := do
  let (g, vnodes) ← validate_group_ndims group_ndims none
  let scope := some (scopeName name "reduce_group_ndims")
  match g with
  | .symbolic _ =>
      pure (.condResult (fun gv => operation tensor (tfRange (-gv) 0)) tensor,
            vnodes ++ [⟨scope, .condNode⟩])
  | .concrete q =>
      if 0 < q then
        pure (.base (operation tensor (tfRange (-q.num) 0)), vnodes)
      else
        pure (.base tensor, vnodes)

/-- Execution semantics of a constructed tensor value, given the runtime
value of the symbolic count: a `tf.cond` evaluates its predicate
`group_ndims > 0` and runs exactly one of its two branches. -/
def execTensor {α : Type} (gVal : Int) : TensorVal α → α
  | .base t => t
  | .condResult tb fb => if 0 < gVal then tb gVal else fb

/-- Execution semantics of the inserted assertion nodes, given the
runtime value of the symbolic count: a non-negativity assertion node
fails the execution when the runtime value is negative. -/
def runAssertions (nodes : List GraphNode) (gVal : Int) :
    Except TfError Unit :=
  if (nodes.any fun n => decide (n.kind = NodeKind.assertNonNeg))
      && decide (gVal < 0) then
    .error .runtimeAssertionViolated
  else .ok ()

/-- The spec's axis list for a count `g`: the last `g` axes in their
existing order, i.e. `[-g, ..., -1]` (entry `j` is `j - g`). -/
def groupAxes (g : Int) : List Int :=
  (List.range g.toNat).map (fun j => (j : Int) - g)

/-- The nodes a fallible construction inserted (none when it failed). -/
def nodesOf {β : Type} : Except TfError (β × List GraphNode) → List GraphNode
  | .ok (_, ns) => ns
  | .error _ => []

theorem tfRange_neg_eq_groupAxes (g : Int) : tfRange (-g) 0 = groupAxes g := by
  unfold tfRange groupAxes
  have h0 : (0 : Int) - -g = g := by ring
  rw [h0]
  exact List.map_congr_left (fun i _ => by omega)

theorem validate_concrete_intCast (n : ℤ) (h : 0 ≤ n) (name : Option String) :
    validate_group_ndims (.concrete (n : ℚ)) name = .ok (.concrete (n : ℚ), []) := by
  have hden : ((n : ℚ)).den = 1 := Rat.den_intCast n
  have hnn : (0 : ℚ) ≤ (n : ℚ) := by exact_mod_cast h
  simp [validate_group_ndims, is_tensor_object, require_int32, hden,
    require_non_negative, hnn, Bind.bind, Except.bind]

theorem validate_symbolic_ok (name : Option String) :
    validate_group_ndims (.symbolic true) name =
      .ok (.symbolic true,
           [⟨some (scopeName name "validate_group_ndims"),
             NodeKind.assertNonNeg⟩]) := by
  simp [validate_group_ndims, is_tensor_object, require_int32,
    require_non_negative, Bind.bind, Except.bind]

/-- C1: for every tensor and every concrete integer count g > 0 (which
passes validation), the reduction equals the operation applied over the
last g axes in their existing order, the axis list [-g, ..., -1]. -/
theorem reduce_concrete_positive {α : Type} (operation : α → List Int → α)
    (tensor : α) (name : Option String) (g : ℤ) (h : 0 < g) :
    reduce_group_ndims operation tensor (.concrete (g : ℚ)) name =
      .ok (.base (operation tensor (groupAxes g)), []) := by
  have hv := validate_concrete_intCast g (le_of_lt h) none
  have hpos : (0 : ℚ) < (g : ℚ) := by exact_mod_cast h
  simp [reduce_group_ndims, hv, hpos, Rat.num_intCast,
    tfRange_neg_eq_groupAxes, Bind.bind, Except.bind, Pure.pure, Except.pure]

/-- Witness for C1 at g = 2. -/
theorem reduce_concrete_positive_witness :
    (0 : ℤ) < 2 ∧
      reduce_group_ndims (fun (_ : List Int) axes => axes) []
          (.concrete ((2 : ℤ) : ℚ)) none =
        .ok (.base (groupAxes 2), []) :=
  ⟨by decide, reduce_concrete_positive _ [] none 2 (by decide)⟩

/-- C2: for a symbolic (integer-compatible) count, construction yields a
runtime conditional containing both branches ahead of execution;
executing it with runtime value 0 yields the tensor unchanged, and with
runtime value k > 0 yields the operation applied over the last k axes
[-k, ..., -1]. -/
theorem reduce_symbolic_cond {α : Type} (operation : α → List Int → α)
    (tensor : α) (name : Option String) :
    ∃ tb : Int → α,
      reduce_group_ndims operation tensor (.symbolic true) name =
        .ok (.condResult tb tensor,
             [⟨some "validate_group_ndims", NodeKind.assertNonNeg⟩,
              ⟨some (scopeName name "reduce_group_ndims"),
               NodeKind.condNode⟩]) ∧
      execTensor 0 (TensorVal.condResult tb tensor) = tensor ∧
      ∀ k : Int, execTensor k (TensorVal.condResult tb tensor) =
        if 0 < k then operation tensor (groupAxes k) else tensor := by
  refine ⟨fun gv => operation tensor (tfRange (-gv) 0), ?_, ?_, ?_⟩
  · have hv := validate_symbolic_ok none
    simp [reduce_group_ndims, hv, Bind.bind, Except.bind, Pure.pure,
      Except.pure, scopeName]
  · simp [execTensor]
  · intro k
    by_cases hk : 0 < k <;>
      simp [execTensor, hk, tfRange_neg_eq_groupAxes]

theorem reduce_concrete_zero_aux {α : Type} (operation : α → List Int → α)
    (tensor : α) (name : Option String) :
    reduce_group_ndims operation tensor (.concrete 0) name =
      .ok (.base tensor, []) := by
  have hv := validate_concrete_intCast 0 le_rfl none
  rw [Int.cast_zero] at hv
  simp [reduce_group_ndims, hv, Bind.bind, Except.bind, Pure.pure,
    Except.pure]

/-- C3: for the concrete count 0, the reduction returns the input tensor
itself unchanged and inserts no graph node for the reduction. -/
theorem reduce_concrete_zero {α : Type} (operation : α → List Int → α)
    (tensor : α) (name : Option String) :
    reduce_group_ndims operation tensor (.concrete 0) name =
      .ok (.base tensor, []) :=
  reduce_concrete_zero_aux operation tensor name

/-- C10: for the concrete count 0, the caller-supplied operation is never
invoked: the construction's result is the same for every operation. -/
theorem reduce_concrete_zero_op_independent {α : Type}
    (op1 op2 : α → List Int → α) (tensor : α) (name : Option String) :
    reduce_group_ndims op1 tensor (.concrete 0) name =
      reduce_group_ndims op2 tensor (.concrete 0) name := by
  rw [reduce_concrete_zero_aux, reduce_concrete_zero_aux]

/-- C4: every concrete non-negative integer passes validation and is
returned unchanged; a concrete input yields a concrete result, and a
symbolic (integer-compatible) input yields a symbolic result. -/
theorem validate_concrete_nonneg_id (n : ℕ) (name : Option String) :
    validate_group_ndims (.concrete (n : ℚ)) name =
      .ok (.concrete (n : ℚ), []) ∧
    validate_group_ndims (.symbolic true) name =
      .ok (.symbolic true,
           [⟨some (scopeName name "validate_group_ndims"),
             NodeKind.assertNonNeg⟩]) := by
  constructor
  · have h := validate_concrete_intCast (n : ℤ) (Int.natCast_nonneg n) name
    rw [Int.cast_natCast] at h
    exact h
  · exact validate_symbolic_ok name

/-- C5: a concrete negative or non-integral count fails validation with
an InvalidArgument error at construction time, and the reduction
propagates exactly that failure unchanged. -/
theorem validate_concrete_invalid (q : ℚ) (nv : Option String) {α : Type}
    (operation : α → List Int → α) (tensor : α) (name : Option String)
    (h : q.den ≠ 1 ∨ q < 0) :
    ∃ msg,
      validate_group_ndims (.concrete q) nv =
        .error (.invalidArgument msg) ∧
      reduce_group_ndims operation tensor (.concrete q) name =
        .error (.invalidArgument msg) := by
  by_cases hden : q.den = 1
  · have hneg : q < 0 := h.resolve_left (by simp [hden])
    refine ⟨"group_ndims must be non-negative", ?_, ?_⟩
    · simp [validate_group_ndims, is_tensor_object, require_int32, hden,
        require_non_negative, hneg.not_le, Bind.bind, Except.bind]
    · have hv : validate_group_ndims (.concrete q) none =
          .error (.invalidArgument "group_ndims must be non-negative") := by
        simp [validate_group_ndims, is_tensor_object, require_int32, hden,
          require_non_negative, hneg.not_le, Bind.bind, Except.bind]
      simp [reduce_group_ndims, hv, Bind.bind, Except.bind]
  · refine ⟨"group_ndims must be int32", ?_, ?_⟩
    · simp [validate_group_ndims, is_tensor_object, require_int32, hden,
        Bind.bind, Except.bind]
    · have hv : validate_group_ndims (.concrete q) none =
          .error (.invalidArgument "group_ndims must be int32") := by
        simp [validate_group_ndims, is_tensor_object, require_int32, hden,
          Bind.bind, Except.bind]
      simp [reduce_group_ndims, hv, Bind.bind, Except.bind]

/-- Witness for C5 at q = -1. -/
theorem validate_concrete_invalid_witness :
    ((-1 : ℚ).den ≠ 1 ∨ (-1 : ℚ) < 0) ∧
      ∃ msg,
        validate_group_ndims (.concrete (-1)) none =
          .error (.invalidArgument msg) ∧
        reduce_group_ndims (fun (t : Int) _ => t) 0 (.concrete (-1)) none =
          .error (.invalidArgument msg) :=
  ⟨Or.inr (by norm_num),
   validate_concrete_invalid (-1) none (fun t _ => t) 0 none
     (Or.inr (by norm_num))⟩

/-- C6: constructing the reduction with a symbolic integer-compatible
count always succeeds at construction time (the runtime value is not
even an input of construction); a negative runtime value instead fails
at graph-execution time, via the embedded non-negativity assertion. -/
theorem reduce_symbolic_defers_negative {α : Type}
    (operation : α → List Int → α) (tensor : α) (name : Option String) :
    ∃ res nodes,
      reduce_group_ndims operation tensor (.symbolic true) name =
        .ok (res, nodes) ∧
      ∀ gVal : Int, runAssertions nodes gVal =
        if gVal < 0 then .error .runtimeAssertionViolated
        else .ok () := by
  refine ⟨.condResult (fun gv => operation tensor (tfRange (-gv) 0)) tensor,
    [⟨some "validate_group_ndims", NodeKind.assertNonNeg⟩,
     ⟨some (scopeName name "reduce_group_ndims"), NodeKind.condNode⟩],
    ?_, ?_⟩
  · have hv := validate_symbolic_ok none
    simp [reduce_group_ndims, hv, Bind.bind, Except.bind, Pure.pure,
      Except.pure, scopeName]
  · intro gVal
    by_cases hg : gVal < 0 <;> simp [runAssertions, hg]

/-- C7: a symbolic count whose declared type is not integer-compatible
fails immediately at construction time with an InvalidArgument error,
both in validation and in the reduction that delegates to it. -/
theorem validate_symbolic_bad_dtype :
    ∃ msg,
      (∀ nv : Option String,
        validate_group_ndims (.symbolic false) nv =
          .error (.invalidArgument msg)) ∧
      ∀ (α : Type) (operation : α → List Int → α) (tensor : α)
        (name : Option String),
        reduce_group_ndims operation tensor (.symbolic false) name =
          .error (.invalidArgument msg) := by
  refine ⟨"group_ndims must be int32", ?_, ?_⟩
  · intro nv
    simp [validate_group_ndims, is_tensor_object, require_int32,
      Bind.bind, Except.bind]
  · intro α operation tensor name
    simp [reduce_group_ndims, validate_group_ndims, is_tensor_object,
      require_int32, Bind.bind, Except.bind]

/-- C8 counterexample: with the caller-supplied scope name "custom", the
assertion node inserted by the delegated validation of a symbolic count
sits under the default scope "validate_group_ndims", not under "custom":
a default name is used although the caller provided a name, because
reduce does not forward its name argument to validation. -/
theorem reduce_scope_counterexample :
    (reduce_group_ndims (fun (t : Int) _ => t) 0 (.symbolic true)
        (some "custom")).map (fun r => r.2.map GraphNode.scope) =
      .ok [some "validate_group_ndims", some "custom"] ∧
    "validate_group_ndims" ≠ "custom" := by
  constructor
  · rfl
  · decide

/-- C8 amended: every inserted node sits under a named scope; the
conditional node uses the caller-supplied name (default
"reduce_group_ndims" when none is given), while the assertion node
inserted by the delegated validation of a symbolic count always uses
validation's own default scope "validate_group_ndims", since the name is
not forwarded to it; a valid concrete count inserts no node at all. -/
theorem reduce_scope_amended {α : Type} (operation : α → List Int → α)
    (tensor : α) (name : Option String) :
    (reduce_group_ndims operation tensor (.symbolic true) name).map
        (fun r => r.2.map GraphNode.scope) =
      .ok [some "validate_group_ndims",
           some (scopeName name "reduce_group_ndims")] ∧
    ∀ n : ℕ,
      (reduce_group_ndims operation tensor (.concrete (n : ℚ)) name).map
          (fun r => r.2) = .ok [] := by
  constructor
  · have hv := validate_symbolic_ok none
    simp [reduce_group_ndims, hv, Bind.bind, Except.bind, Pure.pure,
      Except.pure, scopeName, Except.map]
  · intro n
    have hv := validate_concrete_intCast n (Int.natCast_nonneg n) none
    rw [Int.cast_natCast] at hv
    by_cases hpos : (0 : ℚ) < (n : ℚ) <;>
      simp [reduce_group_ndims, hv, hpos, Bind.bind, Except.bind,
        Pure.pure, Except.pure, Except.map]

/-- C9: for a concrete input, validation opens no name scope and inserts
no graph node, and its result does not depend on the name argument. -/
theorem validate_concrete_name_independent (q : ℚ)
    (n1 n2 : Option String) :
    validate_group_ndims (.concrete q) n1 =
      validate_group_ndims (.concrete q) n2 ∧
    nodesOf (validate_group_ndims (.concrete q) n1) = [] := by
  constructor
  · rfl
  · by_cases hden : q.den = 1 <;> by_cases hq : (0 : ℚ) ≤ q <;>
      simp [validate_group_ndims, is_tensor_object, require_int32,
        require_non_negative, hden, hq, nodesOf, Bind.bind, Except.bind]
